import Mathlib

/-!
# Request-to-persistence mapping layer of go-chi-bucketeer-api

A shallow embedding of `handler/items.go`: the item-id validator `ItemContext`
and the five item handlers, together with the collaborators they call
(`strconv.Atoi`, `render.Render`, `render.Bind`, `chi.URLParam`, the request
context and the `db.Database` port).

A handler run is a function from a request and a world to a world (or a
panic). The world carries the state behind the Persistence Port and an ordered
log of the observable steps: every Persistence Port call and every
`render.Render` call with the error it returned.
-/

set_option autoImplicit false

/-! ## strconv.Atoi (Go standard library, 64-bit `int`) -/

namespace strconv

/-- The two error kinds a `*strconv.NumError` of `Atoi` can carry. -/
inductive NumError where
  | ErrSyntax
  | ErrRange
  deriving DecidableEq, Repr

/-- The bytes of a Go string (Go strings are byte sequences, UTF-8 encoded). -/
def bytes (s : String) : List Nat :=
  (s.data.flatMap String.utf8EncodeChar).map UInt8.toNat

/-- Size of `int` in bits. -/
def intSize : Nat := 64

/-- The loop of the fast path of `Atoi`: `ch -= 48` on a byte, a syntax error
(`none`) when the result exceeds 9, else `n = n*10 + int(ch)`. The fast path
runs on fewer than 19 bytes, so `n` stays below `10^18` and never wraps. -/
def atoiFast : List Nat → Int → Option Int
  | [], n => some n
  | ch :: rest, n =>
    let ch := (ch + 256 - 48) % 256
    if ch > 9 then none else atoiFast rest (n * 10 + (ch : Int))

/-- The largest `uint64`, `maxVal` of `ParseUint` at bit size 64. -/
def maxVal : Nat := 2 ^ 64 - 1

/-- The bound of `ParseUint` past which `n * 10` overflows: `maxUint64/10 + 1`. -/
def cutoff10 : Nat := maxVal / 10 + 1

/-- ASCII lower-casing as in `strconv`: `c | (120 - 88)`. -/
def lower (c : Nat) : Nat := c ||| 32

/-- The digit loop of `ParseUint(s, 10, 0)` on `uint64` arithmetic. Base 10 is
given explicitly, so an underscore is a syntax error. -/
def parseUintLoop : List Nat → Nat → Nat × Option NumError
  | [], n => (n, none)
  | c :: rest, n =>
    if 48 ≤ c ∧ c ≤ 57 then
      let d := c - 48
      if d ≥ 10 then (0, some NumError.ErrSyntax)
      else if n ≥ cutoff10 then (maxVal, some NumError.ErrRange)
      else
        let n10 := (n * 10) % 2 ^ 64
        let n1 := (n10 + d) % 2 ^ 64
        if n1 < n10 ∨ n1 > maxVal then (maxVal, some NumError.ErrRange)
        else parseUintLoop rest n1
    else if 97 ≤ lower c ∧ lower c ≤ 122 then
      let d := lower c - 97 + 10
      if d ≥ 10 then (0, some NumError.ErrSyntax)
      else (0, some NumError.ErrSyntax)
    else (0, some NumError.ErrSyntax)

/-- The function `ParseUint(s, 10, 0)`. -/
def ParseUint (s : List Nat) : Nat × Option NumError :=
  if s = [] then (0, some NumError.ErrSyntax) else parseUintLoop s 0

/-- The function `ParseInt(s, 10, 0)`: an optional sign, then `ParseUint`; a
syntax error returns 0, a range error returns the nearest bound of `int64`. -/
def ParseInt (s : List Nat) : Int × Option NumError :=
  if s = [] then (0, some NumError.ErrSyntax)
  else
    let neg := s.head? = some 45
    let s1 := if s.head? = some 43 then s.tail else if s.head? = some 45 then s.tail else s
    let (un, err) := ParseUint s1
    if err = some NumError.ErrSyntax then (0, err)
    else
      let cutoff : Nat := 2 ^ (intSize - 1)
      if ¬ neg ∧ un ≥ cutoff then ((cutoff : Int) - 1, some NumError.ErrRange)
      else if neg ∧ un > cutoff then (-(cutoff : Int), some NumError.ErrRange)
      else if neg then (-(un : Int), none) else ((un : Int), none)

/-- The function `strconv.Atoi`: the value and the error (`none` is `nil`).
Strings of 1 to 18 bytes take the fast path, all others go through
`ParseInt(s, 10, 0)`. -/
def Atoi (s : String) : Int × Option NumError :=
  let b := bytes s
  if 0 < b.length ∧ b.length < 19 then
    let signed := b.head? = some 45 ∨ b.head? = some 43
    let s1 := if signed then b.tail else b
    if signed ∧ s1.length < 1 then (0, some NumError.ErrSyntax)
    else
      match atoiFast s1 0 with
      | none => (0, some NumError.ErrSyntax)
      | some n => if b.head? = some 45 then (-n, none) else (n, none)
  else ParseInt b

end strconv

/-! ## Data model and collaborators -/

namespace models

/-- Modelled from the spec: the record `models.Item` (package `models` is not
among the sources). Section 3 of the spec: an integer id assigned by the store
and client-supplied `name` and `description` strings. -/
structure Item where
  ID : Int
  Name : String
  Description : String
  deriving DecidableEq, Repr

/-- The list payload `models.ItemList`. -/
abbrev ItemList := List Item

end models

namespace db

/-- Go `error` values as the handlers see them: the sentinel `db.ErrNoMatch`,
which the handlers recognise with `==`, and any other error value, known by
its text. -/
inductive Error where
  | ErrNoMatch
  | Errorf (text : String)
  deriving DecidableEq, Repr

/-- The interface `db.Database` the handlers call through `dbInstance`, over a
store state `σ`. `AddItem` takes a pointer in Go and may fill the record in,
so it returns the record after the call. -/
structure Database (σ : Type) where
  AddItem : models.Item → σ → (models.Item × Option Error) × σ
  GetAllItems : σ → (models.ItemList × Option Error) × σ
  GetItemById : Int → σ → (models.Item × Option Error) × σ
  DeleteItem : Int → σ → Option Error × σ
  UpdateItem : Int → models.Item → σ → (models.Item × Option Error) × σ

/-- Modelled from the spec: the contract of `UpdateItem` on the Persistence
Port, whose implementation (package `db`) is not among the sources. Sections 3
and 4.1 of the spec: `UpdateItem(id, newData)` replaces the mutable fields of
the record identified by `id` and returns the updated record, and the id of a
record never changes; so the record returned on success carries `id`. -/
def Database.UpdateItemReturnsID {σ : Type} (d : Database σ) : Prop :=
  ∀ (id : Int) (itemData item : models.Item) (st st1 : σ),
    d.UpdateItem id itemData st = ((item, none), st1) → item.ID = id

end db

open db (Error Database)
open models (Item ItemList)

namespace handler

/-- The values handed to `render.Render`: the error responses of the package
(`ErrorRenderer(err)`, `ServerErrorRenderer(err)`, `ErrBadRequest`,
`ErrNotFound`, `ErrMethodNotAllowed`) and the two payloads. -/
inductive Renderer where
  | ErrorRenderer (err : Error)
  | ServerErrorRenderer (err : Error)
  | ErrBadRequest
  | ErrNotFound
  | ErrMethodNotAllowed
  | item (i : Item)
  | itemList (l : ItemList)
  deriving DecidableEq, Repr

/-- Modelled from the spec: the HTTP status of the error responses, whose
definitions (`handler/errors.go`) are not among the sources. Sections 4.2 and
4.4 of the spec: the validator errors built with `ErrorRenderer` are
`BadRequest` (400), the generic server error is 500, `ErrBadRequest` is 400,
`ErrNotFound` is 404, `ErrMethodNotAllowed` is 405. Payloads carry no status
of their own. -/
def Renderer.statusCode : Renderer → Option Nat
  | Renderer.ErrorRenderer _ => some 400
  | Renderer.ServerErrorRenderer _ => some 500
  | Renderer.ErrBadRequest => some 400
  | Renderer.ErrNotFound => some 404
  | Renderer.ErrMethodNotAllowed => some 405
  | Renderer.item _ => none
  | Renderer.itemList _ => none

/-- A call of the Persistence Port with its arguments. -/
inductive PortCall where
  | AddItem (item : Item)
  | GetAllItems
  | GetItemById (id : Int)
  | DeleteItem (id : Int)
  | UpdateItem (id : Int) (itemData : Item)
  deriving DecidableEq, Repr

/-- One observable step of a handler run: a Persistence Port call, or a call
`render.Render(w, r, v)` with the error it returned (`none` is `nil`). -/
inductive Event where
  | port (c : PortCall)
  | render (v : Renderer) (err : Option Error)
  deriving DecidableEq, Repr

/-- The Persistence Port calls of a log, in order. -/
def portCalls : List Event → List PortCall
  | [] => []
  | Event.port c :: rest => c :: portCalls rest
  | Event.render _ _ :: rest => portCalls rest

/-- The values passed to `render.Render` in a log, in order. -/
def renders : List Event → List Renderer
  | [] => []
  | Event.port _ :: rest => renders rest
  | Event.render v _ :: rest => v :: renders rest

/-- The responses written in a log: `render.Render` responds only when the
renderer returned no error. -/
def responses : List Event → List Renderer
  | [] => []
  | Event.port _ :: rest => responses rest
  | Event.render v none :: rest => v :: responses rest
  | Event.render _ (some _) :: rest => responses rest

/-- A dynamically typed value held in a request context. -/
inductive Any where
  | int (n : Int)
  | string (s : String)
  deriving DecidableEq, Repr

/-- A request context: the key/value pairs added by `context.WithValue`,
newest first. -/
abbrev Context := List (String × Any)

/-- The function `context.WithValue(ctx, key, val)`. -/
def Context.WithValue (ctx : Context) (key : String) (val : Any) : Context :=
  (key, val) :: ctx

/-- The method `ctx.Value(key)`: the newest value under the key, `none` for
`nil`. -/
def Context.Value : Context → String → Option Any
  | [], _ => none
  | (k, v) :: rest, key => if k = key then some v else Context.Value rest key

/-- The parts of an `*http.Request` the handlers read: the URL parameters of
the matched route, the body, and the context. -/
structure Request where
  URLParams : List (String × String)
  Body : String
  ctx : Context
  deriving Repr

/-- The method `r.WithContext(ctx)`. -/
def Request.WithContext (r : Request) (ctx : Context) : Request :=
  { r with ctx := ctx }

/-- The method `r.Context()`. -/
def Request.Context (r : Request) : Context := r.ctx

end handler

namespace chi

/-- The function `chi.URLParam(r, key)`: the value of the URL parameter, the
empty string when the route has none of that name. -/
def URLParam (r : handler.Request) (key : String) : String :=
  match r.URLParams.find? (fun p => p.1 = key) with
  | some p => p.2
  | none => ""

end chi

namespace handler

/-- The state a handler runs against: the store behind the Persistence Port
and the log of observable steps so far. -/
structure World (σ : Type) where
  store : σ
  log : List Event

/-- What the handlers are run with: the global `dbInstance`, the outcome of
`render.Bind` on a request body (the decoder and `Item.Bind` are not among the
sources), and the error each value returns from its `Render` method. -/
structure Env (σ : Type) where
  dbInstance : Database σ
  Bind : String → Except Error Item
  renderErr : Renderer → Option Error

/-- A run ended by a Go panic. -/
inductive Panic where
  | typeAssertion
  deriving DecidableEq, Repr

/-- An `http.Handler`: `ServeHTTP(w, r)` as a world transformer. -/
abbrev Handler (σ : Type) := Request → World σ → Except Panic (World σ)

/-- The package variable `itemIDKey`. -/
def itemIDKey : String := "itemID"

end handler

namespace render

open handler

/-- The function `render.Render(w, r, v)`: runs the value's `Render` method and
responds only when that returned no error; the error is returned. -/
def Render {σ : Type} (env : Env σ) (v : Renderer) (w : World σ) : Option db.Error × World σ :=
  (env.renderErr v, { w with log := w.log ++ [Event.render v (env.renderErr v)] })

end render

namespace handler

variable {σ : Type}

/-- A Persistence Port call `dbInstance.AddItem(item)`, logged. -/
def callAddItem (env : Env σ) (item : Item) (w : World σ) : (Item × Option Error) × World σ :=
  let res := env.dbInstance.AddItem item w.store
  (res.1, { store := res.2, log := w.log ++ [Event.port (PortCall.AddItem item)] })

/-- A Persistence Port call `dbInstance.GetAllItems()`, logged. -/
def callGetAllItems (env : Env σ) (w : World σ) : (ItemList × Option Error) × World σ :=
  let res := env.dbInstance.GetAllItems w.store
  (res.1, { store := res.2, log := w.log ++ [Event.port PortCall.GetAllItems] })

/-- A Persistence Port call `dbInstance.GetItemById(itemID)`, logged. -/
def callGetItemById (env : Env σ) (itemID : Int) (w : World σ) :
    (Item × Option Error) × World σ :=
  let res := env.dbInstance.GetItemById itemID w.store
  (res.1, { store := res.2, log := w.log ++ [Event.port (PortCall.GetItemById itemID)] })

/-- A Persistence Port call `dbInstance.DeleteItem(itemId)`, logged. -/
def callDeleteItem (env : Env σ) (itemId : Int) (w : World σ) : Option Error × World σ :=
  let res := env.dbInstance.DeleteItem itemId w.store
  (res.1, { store := res.2, log := w.log ++ [Event.port (PortCall.DeleteItem itemId)] })

/-- A Persistence Port call `dbInstance.UpdateItem(itemId, itemData)`, logged. -/
def callUpdateItem (env : Env σ) (itemId : Int) (itemData : Item) (w : World σ) :
    (Item × Option Error) × World σ :=
  let res := env.dbInstance.UpdateItem itemId itemData w.store
  (res.1, { store := res.2, log := w.log ++ [Event.port (PortCall.UpdateItem itemId itemData)] })

/-- The middleware `ItemContext`. An empty id renders an error and returns. A
parse error renders an error and, with no `return` after it, falls through:
the next handler is served with whatever `Atoi` returned under `itemIDKey`. -/
def ItemContext (env : Env σ) (next : Handler σ) : Handler σ := fun r w =>
  let itemId := chi.URLParam r "itemId"
  if itemId = "" then
    Except.ok (render.Render env (Renderer.ErrorRenderer (Error.Errorf "item ID is required")) w).2
  else
    let (id, err) := strconv.Atoi itemId
    let w1 :=
      if err ≠ none then
        (render.Render env (Renderer.ErrorRenderer (Error.Errorf "invalid item ID")) w).2
      else w
    let ctx := r.Context.WithValue itemIDKey (Any.int id)
    next (r.WithContext ctx) w1

/-- The handler `createItem`. -/
def createItem (env : Env σ) : Handler σ := fun r w =>
  match env.Bind r.Body with
  | Except.error _ => Except.ok (render.Render env Renderer.ErrBadRequest w).2
  | Except.ok item0 =>
    match callAddItem env item0 w with
    | ((_, some err), w1) => Except.ok (render.Render env (Renderer.ErrorRenderer err) w1).2
    | ((item, none), w1) =>
      match render.Render env (Renderer.item item) w1 with
      | (some err, w2) => Except.ok (render.Render env (Renderer.ServerErrorRenderer err) w2).2
      | (none, w2) => Except.ok w2

/-- The handler `getAllItems`. -/
def getAllItems (env : Env σ) : Handler σ := fun _ w =>
  match callGetAllItems env w with
  | ((_, some err), w1) => Except.ok (render.Render env (Renderer.ServerErrorRenderer err) w1).2
  | ((items, none), w1) =>
    match render.Render env (Renderer.itemList items) w1 with
    | (some err, w2) => Except.ok (render.Render env (Renderer.ErrorRenderer err) w2).2
    | (none, w2) => Except.ok w2

/-- The handler `getItem`. The type assertion `.(int)` panics when the context
holds no `int` under `itemIDKey`. -/
def getItem (env : Env σ) : Handler σ := fun r w =>
  match r.Context.Value itemIDKey with
  | some (Any.int itemID) =>
    match callGetItemById env itemID w with
    | ((_, some err), w1) =>
      if err = Error.ErrNoMatch then Except.ok (render.Render env Renderer.ErrNotFound w1).2
      else Except.ok (render.Render env (Renderer.ErrorRenderer err) w1).2
    | ((item, none), w1) =>
      match render.Render env (Renderer.item item) w1 with
      | (some err, w2) => Except.ok (render.Render env (Renderer.ServerErrorRenderer err) w2).2
      | (none, w2) => Except.ok w2
  | _ => Except.error Panic.typeAssertion

/-- The handler `deleteItem`. -/
def deleteItem (env : Env σ) : Handler σ := fun r w =>
  match r.Context.Value itemIDKey with
  | some (Any.int itemId) =>
    match callDeleteItem env itemId w with
    | (some err, w1) =>
      if err = Error.ErrNoMatch then Except.ok (render.Render env Renderer.ErrNotFound w1).2
      else Except.ok (render.Render env (Renderer.ServerErrorRenderer err) w1).2
    | (none, w1) => Except.ok w1
  | _ => Except.error Panic.typeAssertion

/-- The handler `updateItem`. -/
def updateItem (env : Env σ) : Handler σ := fun r w =>
  match r.Context.Value itemIDKey with
  | some (Any.int itemId) =>
    match env.Bind r.Body with
    | Except.error _ => Except.ok (render.Render env Renderer.ErrBadRequest w).2
    | Except.ok itemData =>
      match callUpdateItem env itemId itemData w with
      | ((_, some err), w1) =>
        if err = Error.ErrNoMatch then Except.ok (render.Render env Renderer.ErrNotFound w1).2
        else Except.ok (render.Render env (Renderer.ServerErrorRenderer err) w1).2
      | ((item, none), w1) =>
        match render.Render env (Renderer.item item) w1 with
        | (some err, w2) => Except.ok (render.Render env (Renderer.ServerErrorRenderer err) w2).2
        | (none, w2) => Except.ok w2
  | _ => Except.error Panic.typeAssertion

end handler

/-! ## Concrete collaborators used to instantiate the theorems -/

namespace db

/-- The next id an in-memory store assigns: one more than the largest id. -/
def nextID (st : List Item) : Int :=
  st.foldl (fun m i => max m i.ID) 0 + 1

/-- Modelled from the spec: an in-memory Persistence Port (the implementation
of package `db` is not among the sources). Section 4.1 of the spec: `AddItem`
assigns the id, `GetItemById`, `UpdateItem` and `DeleteItem` fail with the
not-found error when no record has the id, `UpdateItem` replaces the mutable
fields and returns the updated record. -/
def memDb : Database (List Item) where
  AddItem := fun item st =>
    let stored : Item := { item with ID := nextID st }
    ((stored, none), st ++ [stored])
  GetAllItems := fun st => ((st, none), st)
  GetItemById := fun id st =>
    match st.find? (fun i => i.ID = id) with
    | some i => ((i, none), st)
    | none => (({ ID := 0, Name := "", Description := "" }, some Error.ErrNoMatch), st)
  DeleteItem := fun id st =>
    if st.any (fun i => i.ID = id) then (none, st.filter (fun i => i.ID ≠ id))
    else (some Error.ErrNoMatch, st)
  UpdateItem := fun id itemData st =>
    if st.any (fun i => i.ID = id) then
      let updated : Item := { itemData with ID := id }
      ((updated, none), st.map (fun i => if i.ID = id then updated else i))
    else (({ ID := 0, Name := "", Description := "" }, some Error.ErrNoMatch), st)

/-- A Persistence Port whose backend is down: every operation fails with the
same storage error. -/
def downDb : Database Unit where
  AddItem := fun item st => ((item, some (Error.Errorf "connection refused")), st)
  GetAllItems := fun st => (([], some (Error.Errorf "connection refused")), st)
  GetItemById := fun _ st =>
    (({ ID := 0, Name := "", Description := "" }, some (Error.Errorf "connection refused")), st)
  DeleteItem := fun _ st => (some (Error.Errorf "connection refused"), st)
  UpdateItem := fun _ _ st =>
    (({ ID := 0, Name := "", Description := "" }, some (Error.Errorf "connection refused")), st)

end db

namespace handler

/-- A decoder for the sample environments: it accepts one body, which carries
the id 99, and rejects every other body. -/
def sampleBind (body : String) : Except Error Item :=
  if body = "widget" then Except.ok { ID := 99, Name := "widget", Description := "a widget" }
  else Except.error (Error.Errorf "malformed body")

/-- A sample environment over the in-memory store, where every value renders
without error. -/
def memEnv : Env (List Item) where
  dbInstance := db.memDb
  Bind := sampleBind
  renderErr := fun _ => none

/-- A sample environment whose storage backend is down. -/
def downEnv : Env Unit where
  dbInstance := db.downDb
  Bind := sampleBind
  renderErr := fun _ => none

/-- A request on the item-scoped route with the given path segment and body. -/
def itemRequest (itemId : String) (body : String) : Request :=
  { URLParams := [("itemId", itemId)], Body := body, ctx := [] }

/-- A request on the collection route with the given body. -/
def collectionRequest (body : String) : Request :=
  { URLParams := [], Body := body, ctx := [] }

/-- A world with the given store and an empty log. -/
def freshWorld {σ : Type} (st : σ) : World σ := { store := st, log := [] }

end handler

/-! ## Lemmas on logs -/

namespace handler

variable {σ : Type}

theorem portCalls_append (l₁ l₂ : List Event) :
    portCalls (l₁ ++ l₂) = portCalls l₁ ++ portCalls l₂ := by
  induction l₁ with
  | nil => rfl
  | cons e rest ih =>
    cases e with
    | port c => simp [portCalls, ih]
    | render v err => simp [portCalls, ih]

theorem renders_append (l₁ l₂ : List Event) :
    renders (l₁ ++ l₂) = renders l₁ ++ renders l₂ := by
  induction l₁ with
  | nil => rfl
  | cons e rest ih =>
    cases e with
    | port c => simp [renders, ih]
    | render v err => simp [renders, ih]

theorem responses_append (l₁ l₂ : List Event) :
    responses (l₁ ++ l₂) = responses l₁ ++ responses l₂ := by
  induction l₁ with
  | nil => rfl
  | cons e rest ih =>
    cases e with
    | port c => simp [responses, ih]
    | render v err =>
      cases err with
      | none => simp [responses, ih]
      | some e => simp [responses, ih]

/-- Every response written was passed to `render.Render`. -/
theorem mem_renders_of_mem_responses (v : Renderer) (l : List Event)
    (h : v ∈ responses l) : v ∈ renders l := by
  induction l with
  | nil => simp [responses] at h
  | cons e rest ih =>
    cases e with
    | port c =>
      simp only [responses] at h
      simpa [renders] using ih h
    | render u err =>
      cases err with
      | none =>
        simp only [responses, List.mem_cons] at h
        rcases h with h | h
        · simp [renders, h]
        · simp [renders, ih h]
      | some e =>
        simp only [responses] at h
        simp [renders, ih h]

theorem Context.Value_WithValue (ctx : Context) (key : String) (val : Any) :
    Context.Value (Context.WithValue ctx key val) key = some val := by
  simp [Context.Value, Context.WithValue]

/-- The empty string is no integer for `Atoi`. -/
theorem Atoi_empty : strconv.Atoi "" = (0, some strconv.NumError.ErrSyntax) := by
  decide

/-- What `ParseInt` returns with an error: 0 with a syntax error, a bound of
`int64` with a range error. -/
theorem ParseInt_error_value (b : List Nat) :
    (strconv.ParseInt b).2 = none
    ∨ strconv.ParseInt b = (0, some strconv.NumError.ErrSyntax)
    ∨ strconv.ParseInt b = (2 ^ 63 - 1, some strconv.NumError.ErrRange)
    ∨ strconv.ParseInt b = (-(2 ^ 63), some strconv.NumError.ErrRange) := by
  unfold strconv.ParseInt
  by_cases hb : b = []
  · simp [hb]
  · simp only [hb, if_false]
    rcases hres : strconv.ParseUint
        (if b.head? = some 43 then b.tail else if b.head? = some 45 then b.tail else b)
      with ⟨un, err⟩
    simp only
    cases err with
    | some e =>
      cases e with
      | ErrSyntax => simp
      | ErrRange =>
        simp only [strconv.intSize]
        split_ifs <;> simp_all
    | none =>
      simp only [strconv.intSize]
      split_ifs <;> simp_all

/-- What `Atoi` returns with an error: 0 with a syntax error, a bound of `int`
with a range error. -/
theorem Atoi_error_value (s : String) :
    (strconv.Atoi s).2 = none
    ∨ strconv.Atoi s = (0, some strconv.NumError.ErrSyntax)
    ∨ strconv.Atoi s = (2 ^ 63 - 1, some strconv.NumError.ErrRange)
    ∨ strconv.Atoi s = (-(2 ^ 63), some strconv.NumError.ErrRange) := by
  unfold strconv.Atoi
  simp only
  by_cases h1 : 0 < (strconv.bytes s).length ∧ (strconv.bytes s).length < 19
  · rw [if_pos h1]
    split_ifs <;> first | (simp; done) | (split <;> simp)
  · rw [if_neg h1]
    exact ParseInt_error_value _

end handler

/-! ## The handlers, path by path -/

namespace handler

variable {σ : Type}

/-- With a non-empty id, `ItemContext` always serves the next handler, on the
value `Atoi` returned, after rendering an error when `Atoi` failed. -/
theorem ItemContext_nonempty (env : Env σ) (next : Handler σ) (r : Request) (w : World σ)
    (h : chi.URLParam r "itemId" ≠ "") :
    ItemContext env next r w =
      next (r.WithContext (r.Context.WithValue itemIDKey
          (Any.int (strconv.Atoi (chi.URLParam r "itemId")).1)))
        (if (strconv.Atoi (chi.URLParam r "itemId")).2 ≠ none then
          { store := w.store,
            log := w.log ++ [Event.render (Renderer.ErrorRenderer (Error.Errorf "invalid item ID"))
              (env.renderErr (Renderer.ErrorRenderer (Error.Errorf "invalid item ID")))] }
        else w) := by
  simp only [ItemContext, h, if_false, render.Render]

/-- With a parsed id, `ItemContext` is the next handler on the extended
context. -/
theorem ItemContext_parsed (env : Env σ) (next : Handler σ) (r : Request) (w : World σ) (n : Int)
    (h : strconv.Atoi (chi.URLParam r "itemId") = (n, none)) :
    ItemContext env next r w =
      next (r.WithContext (r.Context.WithValue itemIDKey (Any.int n))) w := by
  have hne : chi.URLParam r "itemId" ≠ "" := by
    intro h0
    rw [h0, Atoi_empty] at h
    simp at h
  rw [ItemContext_nonempty env next r w hne, h]
  simp

/-- Served with an id in the context, `getItem` returns and calls the
Persistence Port once, with that id. -/
theorem getItem_portCalls (env : Env σ) (r : Request) (w : World σ) (n : Int)
    (hctx : r.Context.Value itemIDKey = some (Any.int n)) :
    ∃ w1, getItem env r w = Except.ok w1
      ∧ portCalls w1.log = portCalls w.log ++ [PortCall.GetItemById n] := by
  rcases hres : env.dbInstance.GetItemById n w.store with ⟨⟨item, err⟩, st⟩
  cases err with
  | some e =>
    by_cases he : e = Error.ErrNoMatch
    · simp [getItem, hctx, callGetItemById, hres, he, render.Render, portCalls_append, portCalls]
    · simp [getItem, hctx, callGetItemById, hres, he, render.Render, portCalls_append, portCalls]
  | none =>
    cases hr : env.renderErr (Renderer.item item) with
    | none =>
      simp [getItem, hctx, callGetItemById, hres, hr, render.Render, portCalls_append, portCalls]
    | some e =>
      simp [getItem, hctx, callGetItemById, hres, hr, render.Render, portCalls_append, portCalls]

/-- Served with an id in the context, `deleteItem` returns and calls the
Persistence Port once, with that id. -/
theorem deleteItem_portCalls (env : Env σ) (r : Request) (w : World σ) (n : Int)
    (hctx : r.Context.Value itemIDKey = some (Any.int n)) :
    ∃ w1, deleteItem env r w = Except.ok w1
      ∧ portCalls w1.log = portCalls w.log ++ [PortCall.DeleteItem n] := by
  rcases hres : env.dbInstance.DeleteItem n w.store with ⟨err, st⟩
  cases err with
  | some e =>
    by_cases he : e = Error.ErrNoMatch
    · simp [deleteItem, hctx, callDeleteItem, hres, he, render.Render, portCalls_append, portCalls]
    · simp [deleteItem, hctx, callDeleteItem, hres, he, render.Render, portCalls_append, portCalls]
  | none =>
    simp [deleteItem, hctx, callDeleteItem, hres, portCalls_append, portCalls]

/-- Served with an id in the context and a body that decodes, `updateItem`
returns and calls the Persistence Port once, with that id and the decoded
record. -/
theorem updateItem_portCalls (env : Env σ) (r : Request) (w : World σ) (n : Int)
    (itemData : Item) (hctx : r.Context.Value itemIDKey = some (Any.int n))
    (hbind : env.Bind r.Body = Except.ok itemData) :
    ∃ w1, updateItem env r w = Except.ok w1
      ∧ portCalls w1.log = portCalls w.log ++ [PortCall.UpdateItem n itemData] := by
  rcases hres : env.dbInstance.UpdateItem n itemData w.store with ⟨⟨item, err⟩, st⟩
  cases err with
  | some e =>
    by_cases he : e = Error.ErrNoMatch
    · simp [updateItem, hctx, hbind, callUpdateItem, hres, he, render.Render, portCalls_append,
        portCalls]
    · simp [updateItem, hctx, hbind, callUpdateItem, hres, he, render.Render, portCalls_append,
        portCalls]
  | none =>
    cases hr : env.renderErr (Renderer.item item) with
    | none =>
      simp [updateItem, hctx, hbind, callUpdateItem, hres, hr, render.Render, portCalls_append,
        portCalls]
    | some e =>
      simp [updateItem, hctx, hbind, callUpdateItem, hres, hr, render.Render, portCalls_append,
        portCalls]

/-- Served with an id in the context and a body that does not decode,
`updateItem` renders `ErrBadRequest` and returns. -/
theorem updateItem_decode_failure (env : Env σ) (r : Request) (w : World σ) (n : Int)
    (e : Error) (hctx : r.Context.Value itemIDKey = some (Any.int n))
    (hbind : env.Bind r.Body = Except.error e) :
    updateItem env r w = Except.ok
      { store := w.store,
        log := w.log ++ [Event.render Renderer.ErrBadRequest
          (env.renderErr Renderer.ErrBadRequest)] } := by
  simp [updateItem, hctx, hbind, render.Render]

/-- Served with an id in the context, `getItem` returns. -/
theorem getItem_returns (env : Env σ) (r : Request) (w : World σ) (n : Int)
    (hctx : r.Context.Value itemIDKey = some (Any.int n)) :
    ∃ w1, getItem env r w = Except.ok w1 := by
  obtain ⟨w1, h1, _⟩ := getItem_portCalls env r w n hctx
  exact ⟨w1, h1⟩

/-- Served with an id in the context, `deleteItem` returns. -/
theorem deleteItem_returns (env : Env σ) (r : Request) (w : World σ) (n : Int)
    (hctx : r.Context.Value itemIDKey = some (Any.int n)) :
    ∃ w1, deleteItem env r w = Except.ok w1 := by
  obtain ⟨w1, h1, _⟩ := deleteItem_portCalls env r w n hctx
  exact ⟨w1, h1⟩

/-- Served with an id in the context, `updateItem` returns. -/
theorem updateItem_returns (env : Env σ) (r : Request) (w : World σ) (n : Int)
    (hctx : r.Context.Value itemIDKey = some (Any.int n)) :
    ∃ w1, updateItem env r w = Except.ok w1 := by
  cases hbind : env.Bind r.Body with
  | error e => exact ⟨_, updateItem_decode_failure env r w n e hctx hbind⟩
  | ok itemData =>
    obtain ⟨w1, h1, _⟩ := updateItem_portCalls env r w n itemData hctx hbind
    exact ⟨w1, h1⟩

/-- The world `getItem` ends in, from what `GetItemById` returned: the store
the Persistence Port left, the call in the log, and the renders that follow
from the returned record and error. -/
theorem getItem_world (env : Env σ) (r : Request) (w : World σ) (n : Int)
    (item : Item) (err : Option Error) (st : σ)
    (hctx : r.Context.Value itemIDKey = some (Any.int n)) :
    env.dbInstance.GetItemById n w.store = ((item, err), st) →
    getItem env r w = Except.ok
      { store := st,
        log := w.log ++ Event.port (PortCall.GetItemById n) ::
          (match err with
           | some e =>
             [Event.render
               (if e = Error.ErrNoMatch then Renderer.ErrNotFound else Renderer.ErrorRenderer e)
               (env.renderErr
                 (if e = Error.ErrNoMatch then Renderer.ErrNotFound
                  else Renderer.ErrorRenderer e))]
           | none =>
             Event.render (Renderer.item item) (env.renderErr (Renderer.item item)) ::
               (match env.renderErr (Renderer.item item) with
                | some e => [Event.render (Renderer.ServerErrorRenderer e)
                    (env.renderErr (Renderer.ServerErrorRenderer e))]
                | none => [])) } := by
  intro hres
  cases err with
  | some e =>
    by_cases he : e = Error.ErrNoMatch
    · simp [getItem, hctx, callGetItemById, hres, he, render.Render]
    · simp [getItem, hctx, callGetItemById, hres, he, render.Render]
  | none =>
    cases hr : env.renderErr (Renderer.item item) with
    | none => simp [getItem, hctx, callGetItemById, hres, hr, render.Render]
    | some e => simp [getItem, hctx, callGetItemById, hres, hr, render.Render]

/-- The world `deleteItem` ends in, from what `DeleteItem` returned. -/
theorem deleteItem_world (env : Env σ) (r : Request) (w : World σ) (n : Int)
    (err : Option Error) (st : σ)
    (hctx : r.Context.Value itemIDKey = some (Any.int n)) :
    env.dbInstance.DeleteItem n w.store = (err, st) →
    deleteItem env r w = Except.ok
      { store := st,
        log := w.log ++ Event.port (PortCall.DeleteItem n) ::
          (match err with
           | some e =>
             [Event.render
               (if e = Error.ErrNoMatch then Renderer.ErrNotFound
                else Renderer.ServerErrorRenderer e)
               (env.renderErr
                 (if e = Error.ErrNoMatch then Renderer.ErrNotFound
                  else Renderer.ServerErrorRenderer e))]
           | none => []) } := by
  intro hres
  cases err with
  | some e =>
    by_cases he : e = Error.ErrNoMatch
    · simp [deleteItem, hctx, callDeleteItem, hres, he, render.Render]
    · simp [deleteItem, hctx, callDeleteItem, hres, he, render.Render]
  | none => simp [deleteItem, hctx, callDeleteItem, hres]

/-- The world `updateItem` ends in on a decoded body, from what `UpdateItem`
returned. -/
theorem updateItem_world (env : Env σ) (r : Request) (w : World σ) (n : Int)
    (itemData item : Item) (err : Option Error) (st : σ)
    (hctx : r.Context.Value itemIDKey = some (Any.int n))
    (hbind : env.Bind r.Body = Except.ok itemData) :
    env.dbInstance.UpdateItem n itemData w.store = ((item, err), st) →
    updateItem env r w = Except.ok
      { store := st,
        log := w.log ++ Event.port (PortCall.UpdateItem n itemData) ::
          (match err with
           | some e =>
             [Event.render
               (if e = Error.ErrNoMatch then Renderer.ErrNotFound
                else Renderer.ServerErrorRenderer e)
               (env.renderErr
                 (if e = Error.ErrNoMatch then Renderer.ErrNotFound
                  else Renderer.ServerErrorRenderer e))]
           | none =>
             Event.render (Renderer.item item) (env.renderErr (Renderer.item item)) ::
               (match env.renderErr (Renderer.item item) with
                | some e => [Event.render (Renderer.ServerErrorRenderer e)
                    (env.renderErr (Renderer.ServerErrorRenderer e))]
                | none => [])) } := by
  intro hres
  cases err with
  | some e =>
    by_cases he : e = Error.ErrNoMatch
    · simp [updateItem, hctx, hbind, callUpdateItem, hres, he, render.Render]
    · simp [updateItem, hctx, hbind, callUpdateItem, hres, he, render.Render]
  | none =>
    cases hr : env.renderErr (Renderer.item item) with
    | none => simp [updateItem, hctx, hbind, callUpdateItem, hres, hr, render.Render]
    | some e => simp [updateItem, hctx, hbind, callUpdateItem, hres, hr, render.Render]

/-- The in-memory store keeps the Persistence Port contract of `UpdateItem`:
the record it returns on success carries the id it was called with. -/
theorem memDb_UpdateItem_ID (id : Int) (itemData item : Item) (st st1 : List Item)
    (h : db.memDb.UpdateItem id itemData st = ((item, none), st1)) : item.ID = id := by
  simp only [db.memDb] at h
  split_ifs at h
  · simp only [Prod.mk.injEq] at h
    rw [← h.1.1]
  · simp at h

/-- One `render.Render` call writes at most one response. -/
theorem responses_render_le (v : Renderer) (err : Option Error) (rest : List Event) :
    (responses (Event.render v err :: rest)).length ≤ (responses rest).length + 1 := by
  cases err with
  | none => simp [responses]
  | some e => simp [responses]

/-- On its own, `createItem` writes at most one response. -/
theorem createItem_responses_le (env : Env σ) (r : Request) (w : World σ) :
    ∃ w1, createItem env r w = Except.ok w1
      ∧ (responses w1.log).length ≤ (responses w.log).length + 1 := by
  cases hbind : env.Bind r.Body with
  | error e =>
    have h := responses_render_le Renderer.ErrBadRequest (env.renderErr Renderer.ErrBadRequest) []
    simpa [createItem, hbind, render.Render, responses_append, responses] using h
  | ok item0 =>
    rcases hres : env.dbInstance.AddItem item0 w.store with ⟨⟨item, err⟩, st⟩
    cases err with
    | some e =>
      have h := responses_render_le (Renderer.ErrorRenderer e)
        (env.renderErr (Renderer.ErrorRenderer e)) []
      simpa [createItem, hbind, callAddItem, hres, render.Render, responses_append, responses]
        using h
    | none =>
      cases hr : env.renderErr (Renderer.item item) with
      | none =>
        simp [createItem, hbind, callAddItem, hres, hr, render.Render, responses_append, responses]
      | some e =>
        have h := responses_render_le (Renderer.ServerErrorRenderer e)
          (env.renderErr (Renderer.ServerErrorRenderer e)) []
        simpa [createItem, hbind, callAddItem, hres, hr, render.Render, responses_append,
          responses] using h

/-- On its own, `getAllItems` writes at most one response. -/
theorem getAllItems_responses_le (env : Env σ) (r : Request) (w : World σ) :
    ∃ w1, getAllItems env r w = Except.ok w1
      ∧ (responses w1.log).length ≤ (responses w.log).length + 1 := by
  rcases hres : env.dbInstance.GetAllItems w.store with ⟨⟨items, err⟩, st⟩
  cases err with
  | some e =>
    have h := responses_render_le (Renderer.ServerErrorRenderer e)
      (env.renderErr (Renderer.ServerErrorRenderer e)) []
    simpa [getAllItems, callGetAllItems, hres, render.Render, responses_append, responses] using h
  | none =>
    cases hr : env.renderErr (Renderer.itemList items) with
    | none =>
      simp [getAllItems, callGetAllItems, hres, hr, render.Render, responses_append, responses]
    | some e =>
      have h := responses_render_le (Renderer.ErrorRenderer e)
        (env.renderErr (Renderer.ErrorRenderer e)) []
      simpa [getAllItems, callGetAllItems, hres, hr, render.Render, responses_append, responses]
        using h

/-- Served with an id in the context, `getItem` writes at most one response. -/
theorem getItem_responses_le (env : Env σ) (r : Request) (w : World σ) (n : Int)
    (hctx : r.Context.Value itemIDKey = some (Any.int n)) :
    ∃ w1, getItem env r w = Except.ok w1
      ∧ (responses w1.log).length ≤ (responses w.log).length + 1 := by
  rcases hres : env.dbInstance.GetItemById n w.store with ⟨⟨item, err⟩, st⟩
  cases err with
  | some e =>
    by_cases he : e = Error.ErrNoMatch
    · have h := responses_render_le Renderer.ErrNotFound (env.renderErr Renderer.ErrNotFound) []
      simpa [getItem, hctx, callGetItemById, hres, he, render.Render, responses_append, responses]
        using h
    · have h := responses_render_le (Renderer.ErrorRenderer e)
        (env.renderErr (Renderer.ErrorRenderer e)) []
      simpa [getItem, hctx, callGetItemById, hres, he, render.Render, responses_append, responses]
        using h
  | none =>
    cases hr : env.renderErr (Renderer.item item) with
    | none =>
      simp [getItem, hctx, callGetItemById, hres, hr, render.Render, responses_append, responses]
    | some e =>
      have h := responses_render_le (Renderer.ServerErrorRenderer e)
        (env.renderErr (Renderer.ServerErrorRenderer e)) []
      simpa [getItem, hctx, callGetItemById, hres, hr, render.Render, responses_append, responses]
        using h

/-- Served with an id in the context, `deleteItem` writes at most one
response. -/
theorem deleteItem_responses_le (env : Env σ) (r : Request) (w : World σ) (n : Int)
    (hctx : r.Context.Value itemIDKey = some (Any.int n)) :
    ∃ w1, deleteItem env r w = Except.ok w1
      ∧ (responses w1.log).length ≤ (responses w.log).length + 1 := by
  rcases hres : env.dbInstance.DeleteItem n w.store with ⟨err, st⟩
  cases err with
  | some e =>
    by_cases he : e = Error.ErrNoMatch
    · have h := responses_render_le Renderer.ErrNotFound (env.renderErr Renderer.ErrNotFound) []
      simpa [deleteItem, hctx, callDeleteItem, hres, he, render.Render, responses_append, responses]
        using h
    · have h := responses_render_le (Renderer.ServerErrorRenderer e)
        (env.renderErr (Renderer.ServerErrorRenderer e)) []
      simpa [deleteItem, hctx, callDeleteItem, hres, he, render.Render, responses_append, responses]
        using h
  | none =>
    simp [deleteItem, hctx, callDeleteItem, hres, responses_append, responses]

/-- Served with an id in the context, `updateItem` writes at most one
response. -/
theorem updateItem_responses_le (env : Env σ) (r : Request) (w : World σ) (n : Int)
    (hctx : r.Context.Value itemIDKey = some (Any.int n)) :
    ∃ w1, updateItem env r w = Except.ok w1
      ∧ (responses w1.log).length ≤ (responses w.log).length + 1 := by
  cases hbind : env.Bind r.Body with
  | error e =>
    have h := responses_render_le Renderer.ErrBadRequest (env.renderErr Renderer.ErrBadRequest) []
    simpa [updateItem, hctx, hbind, render.Render, responses_append, responses] using h
  | ok itemData =>
    rcases hres : env.dbInstance.UpdateItem n itemData w.store with ⟨⟨item, err⟩, st⟩
    cases err with
    | some e =>
      by_cases he : e = Error.ErrNoMatch
      · have h := responses_render_le Renderer.ErrNotFound (env.renderErr Renderer.ErrNotFound) []
        simpa [updateItem, hctx, hbind, callUpdateItem, hres, he, render.Render, responses_append,
          responses] using h
      · have h := responses_render_le (Renderer.ServerErrorRenderer e)
          (env.renderErr (Renderer.ServerErrorRenderer e)) []
        simpa [updateItem, hctx, hbind, callUpdateItem, hres, he, render.Render, responses_append,
          responses] using h
    | none =>
      cases hr : env.renderErr (Renderer.item item) with
      | none =>
        simp [updateItem, hctx, hbind, callUpdateItem, hres, hr, render.Render, responses_append,
          responses]
      | some e =>
        have h := responses_render_le (Renderer.ServerErrorRenderer e)
          (env.renderErr (Renderer.ServerErrorRenderer e)) []
        simpa [updateItem, hctx, hbind, callUpdateItem, hres, hr, render.Render, responses_append,
          responses] using h

end handler

/-! ## The claims -/

namespace handler

variable {σ : Type}

/-- Claim C1, evaluated on the path segment "abc": `Atoi` fails with a syntax
error and the value 0, `ItemContext` renders the error built from "invalid
item ID" and, not returning, still serves the next handler with 0 under
`itemIDKey`: `getItem`, `deleteItem` and `updateItem` each go on to call the
Persistence Port with id 0 and render a second time. -/
theorem C1_parse_failure_reaches_next_handler :
    strconv.Atoi "abc" = (0, some strconv.NumError.ErrSyntax)
    ∧ ItemContext memEnv (getItem memEnv) (itemRequest "abc" "") (freshWorld []) =
      Except.ok { store := [],
                  log := [Event.render (Renderer.ErrorRenderer (Error.Errorf "invalid item ID")) none,
                          Event.port (PortCall.GetItemById 0),
                          Event.render Renderer.ErrNotFound none] }
    ∧ ItemContext memEnv (deleteItem memEnv) (itemRequest "abc" "") (freshWorld []) =
      Except.ok { store := [],
                  log := [Event.render (Renderer.ErrorRenderer (Error.Errorf "invalid item ID")) none,
                          Event.port (PortCall.DeleteItem 0),
                          Event.render Renderer.ErrNotFound none] }
    ∧ ItemContext memEnv (updateItem memEnv) (itemRequest "abc" "widget") (freshWorld []) =
      Except.ok { store := [],
                  log := [Event.render (Renderer.ErrorRenderer (Error.Errorf "invalid item ID")) none,
                          Event.port (PortCall.UpdateItem 0
                            { ID := 99, Name := "widget", Description := "a widget" }),
                          Event.render Renderer.ErrNotFound none] } := by
  refine ⟨by decide, ?_, ?_, ?_⟩ <;> rfl

/-- Claim C2: for every request whose item id path parameter is the empty
string, `ItemContext` makes exactly one `render.Render` call, with the error
built from the message "item ID is required", and returns. The outcome is the
same whatever the next handler is (it is not invoked), the store is untouched
and the log gains no Persistence Port call. -/
theorem C2_ItemContext_empty_id (env : Env σ) (next : Handler σ) (r : Request) (w : World σ)
    (h : chi.URLParam r "itemId" = "") :
    ∃ w1, ItemContext env next r w = Except.ok w1
      ∧ (∀ other : Handler σ, ItemContext env other r w = Except.ok w1)
      ∧ w1.store = w.store
      ∧ w1.log = w.log ++ [Event.render (Renderer.ErrorRenderer (Error.Errorf "item ID is required"))
          (env.renderErr (Renderer.ErrorRenderer (Error.Errorf "item ID is required")))]
      ∧ renders w1.log = renders w.log ++ [Renderer.ErrorRenderer (Error.Errorf "item ID is required")]
      ∧ portCalls w1.log = portCalls w.log := by
  refine ⟨{ store := w.store,
            log := w.log ++ [Event.render (Renderer.ErrorRenderer (Error.Errorf "item ID is required"))
              (env.renderErr (Renderer.ErrorRenderer (Error.Errorf "item ID is required")))] },
    ?_, ?_, rfl, rfl, ?_, ?_⟩
  · simp [ItemContext, h, render.Render]
  · intro other
    simp [ItemContext, h, render.Render]
  · simp [renders_append, renders]
  · simp [portCalls_append, portCalls]

/-- Witness of C2: the empty path parameter, with `getItem` as next handler
over an in-memory store holding one record. -/
theorem C2_ItemContext_empty_id_witness :
    chi.URLParam (itemRequest "" "") "itemId" = ""
    ∧ ∃ w1, ItemContext memEnv (getItem memEnv) (itemRequest "" "")
          (freshWorld [{ ID := 1, Name := "a", Description := "" }]) = Except.ok w1
      ∧ (∀ other : Handler (List Item), ItemContext memEnv other (itemRequest "" "")
          (freshWorld [{ ID := 1, Name := "a", Description := "" }]) = Except.ok w1)
      ∧ w1.store = [{ ID := 1, Name := "a", Description := "" }]
      ∧ w1.log = [] ++ [Event.render (Renderer.ErrorRenderer (Error.Errorf "item ID is required"))
          (memEnv.renderErr (Renderer.ErrorRenderer (Error.Errorf "item ID is required")))]
      ∧ renders w1.log = renders [] ++ [Renderer.ErrorRenderer (Error.Errorf "item ID is required")]
      ∧ portCalls w1.log = portCalls [] :=
  ⟨by decide, C2_ItemContext_empty_id memEnv (getItem memEnv) (itemRequest "" "")
    (freshWorld [{ ID := 1, Name := "a", Description := "" }]) (by decide)⟩

/-- Claim C3: for every item id path segment that `Atoi` parses as the integer
`n`, `ItemContext` writes nothing itself and is exactly one run of the next
handler, on the unchanged world and on a request whose context maps
`itemIDKey` to `n`. So `getItem`, `deleteItem` and `updateItem` (on a body
that decodes) call `GetItemById`, `DeleteItem` and `UpdateItem` with exactly
that `n` and make no other Persistence Port call: the store they leave is the
one that call on `n` left, and the whole outcome is fixed by what that call on
`n` returned. -/
theorem C3_ItemContext_parsed_id (env : Env σ) (r : Request) (w : World σ) (n : Int)
    (h : strconv.Atoi (chi.URLParam r "itemId") = (n, none)) :
    (∀ next : Handler σ, ItemContext env next r w =
        next (r.WithContext (r.Context.WithValue itemIDKey (Any.int n))) w)
    ∧ (r.WithContext (r.Context.WithValue itemIDKey (Any.int n))).Context.Value itemIDKey
        = some (Any.int n)
    ∧ (∃ w1, ItemContext env (getItem env) r w = Except.ok w1
        ∧ portCalls w1.log = portCalls w.log ++ [PortCall.GetItemById n]
        ∧ w1.store = (env.dbInstance.GetItemById n w.store).2)
    ∧ (∃ w1, ItemContext env (deleteItem env) r w = Except.ok w1
        ∧ portCalls w1.log = portCalls w.log ++ [PortCall.DeleteItem n]
        ∧ w1.store = (env.dbInstance.DeleteItem n w.store).2)
    ∧ (∀ itemData : Item, env.Bind r.Body = Except.ok itemData →
        ∃ w1, ItemContext env (updateItem env) r w = Except.ok w1
          ∧ portCalls w1.log = portCalls w.log ++ [PortCall.UpdateItem n itemData]
          ∧ w1.store = (env.dbInstance.UpdateItem n itemData w.store).2)
    ∧ (∀ (item : Item) (err : Option Error) (st : σ),
        env.dbInstance.GetItemById n w.store = ((item, err), st) →
        ItemContext env (getItem env) r w = Except.ok
          { store := st,
            log := w.log ++ Event.port (PortCall.GetItemById n) ::
              (match err with
               | some e =>
                 [Event.render
                   (if e = Error.ErrNoMatch then Renderer.ErrNotFound
                    else Renderer.ErrorRenderer e)
                   (env.renderErr
                     (if e = Error.ErrNoMatch then Renderer.ErrNotFound
                      else Renderer.ErrorRenderer e))]
               | none =>
                 Event.render (Renderer.item item) (env.renderErr (Renderer.item item)) ::
                   (match env.renderErr (Renderer.item item) with
                    | some e => [Event.render (Renderer.ServerErrorRenderer e)
                        (env.renderErr (Renderer.ServerErrorRenderer e))]
                    | none => [])) })
    ∧ (∀ (err : Option Error) (st : σ),
        env.dbInstance.DeleteItem n w.store = (err, st) →
        ItemContext env (deleteItem env) r w = Except.ok
          { store := st,
            log := w.log ++ Event.port (PortCall.DeleteItem n) ::
              (match err with
               | some e =>
                 [Event.render
                   (if e = Error.ErrNoMatch then Renderer.ErrNotFound
                    else Renderer.ServerErrorRenderer e)
                   (env.renderErr
                     (if e = Error.ErrNoMatch then Renderer.ErrNotFound
                      else Renderer.ServerErrorRenderer e))]
               | none => []) })
    ∧ (∀ (itemData item : Item) (err : Option Error) (st : σ),
        env.Bind r.Body = Except.ok itemData →
        env.dbInstance.UpdateItem n itemData w.store = ((item, err), st) →
        ItemContext env (updateItem env) r w = Except.ok
          { store := st,
            log := w.log ++ Event.port (PortCall.UpdateItem n itemData) ::
              (match err with
               | some e =>
                 [Event.render
                   (if e = Error.ErrNoMatch then Renderer.ErrNotFound
                    else Renderer.ServerErrorRenderer e)
                   (env.renderErr
                     (if e = Error.ErrNoMatch then Renderer.ErrNotFound
                      else Renderer.ServerErrorRenderer e))]
               | none =>
                 Event.render (Renderer.item item) (env.renderErr (Renderer.item item)) ::
                   (match env.renderErr (Renderer.item item) with
                    | some e => [Event.render (Renderer.ServerErrorRenderer e)
                        (env.renderErr (Renderer.ServerErrorRenderer e))]
                    | none => [])) }) := by
  have hctx : (r.WithContext (r.Context.WithValue itemIDKey (Any.int n))).Context.Value itemIDKey
      = some (Any.int n) := Context.Value_WithValue r.Context itemIDKey (Any.int n)
  refine ⟨fun next => ItemContext_parsed env next r w n h, hctx, ?_, ?_, ?_, ?_, ?_, ?_⟩
  · rw [ItemContext_parsed env _ r w n h]
    obtain ⟨w1, h1, hp⟩ := getItem_portCalls env _ w n hctx
    refine ⟨w1, h1, hp, ?_⟩
    rcases hres : env.dbInstance.GetItemById n w.store with ⟨⟨item, err⟩, st⟩
    have hw := getItem_world env _ w n item err st hctx hres
    rw [h1] at hw
    simp only [Except.ok.injEq] at hw
    rw [hw]
  · rw [ItemContext_parsed env _ r w n h]
    obtain ⟨w1, h1, hp⟩ := deleteItem_portCalls env _ w n hctx
    refine ⟨w1, h1, hp, ?_⟩
    rcases hres : env.dbInstance.DeleteItem n w.store with ⟨err, st⟩
    have hw := deleteItem_world env _ w n err st hctx hres
    rw [h1] at hw
    simp only [Except.ok.injEq] at hw
    rw [hw]
  · intro itemData hbind
    rw [ItemContext_parsed env _ r w n h]
    obtain ⟨w1, h1, hp⟩ := updateItem_portCalls env _ w n itemData hctx hbind
    refine ⟨w1, h1, hp, ?_⟩
    rcases hres : env.dbInstance.UpdateItem n itemData w.store with ⟨⟨item, err⟩, st⟩
    have hw := updateItem_world env _ w n itemData item err st hctx hbind hres
    rw [h1] at hw
    simp only [Except.ok.injEq] at hw
    rw [hw]
  · intro item err st hres
    rw [ItemContext_parsed env _ r w n h]
    exact getItem_world env _ w n item err st hctx hres
  · intro err st hres
    rw [ItemContext_parsed env _ r w n h]
    exact deleteItem_world env _ w n err st hctx hres
  · intro itemData item err st hbind hres
    rw [ItemContext_parsed env _ r w n h]
    exact updateItem_world env _ w n itemData item err st hctx hbind hres

/-- Witness of C3: the path segment "42" over an in-memory store holding the
records 42 and 43: `getItem` renders the record 42 and `deleteItem` removes
the record 42 alone. -/
theorem C3_ItemContext_parsed_id_witness :
    strconv.Atoi (chi.URLParam (itemRequest "42" "widget") "itemId") = (42, none)
    ∧ (∀ next : Handler (List Item),
        ItemContext memEnv next (itemRequest "42" "widget") (freshWorld []) =
          next ((itemRequest "42" "widget").WithContext
            ((itemRequest "42" "widget").Context.WithValue itemIDKey (Any.int 42))) (freshWorld []))
    ∧ ItemContext memEnv (getItem memEnv) (itemRequest "42" "widget")
        (freshWorld [{ ID := 42, Name := "a", Description := "" },
                     { ID := 43, Name := "b", Description := "" }])
      = Except.ok
          { store := [{ ID := 42, Name := "a", Description := "" },
                      { ID := 43, Name := "b", Description := "" }],
            log := [Event.port (PortCall.GetItemById 42),
                    Event.render (Renderer.item { ID := 42, Name := "a", Description := "" })
                      none] }
    ∧ ItemContext memEnv (deleteItem memEnv) (itemRequest "42" "widget")
        (freshWorld [{ ID := 42, Name := "a", Description := "" },
                     { ID := 43, Name := "b", Description := "" }])
      = Except.ok
          { store := [{ ID := 43, Name := "b", Description := "" }],
            log := [Event.port (PortCall.DeleteItem 42)] } :=
  ⟨by decide,
   (C3_ItemContext_parsed_id memEnv (itemRequest "42" "widget") (freshWorld []) 42 (by decide)).1,
   (C3_ItemContext_parsed_id memEnv (itemRequest "42" "widget")
      (freshWorld [{ ID := 42, Name := "a", Description := "" },
                   { ID := 43, Name := "b", Description := "" }]) 42
      (by decide)).2.2.2.2.2.1 { ID := 42, Name := "a", Description := "" } none
      [{ ID := 42, Name := "a", Description := "" },
       { ID := 43, Name := "b", Description := "" }] rfl,
   (C3_ItemContext_parsed_id memEnv (itemRequest "42" "widget")
      (freshWorld [{ ID := 42, Name := "a", Description := "" },
                   { ID := 43, Name := "b", Description := "" }]) 42
      (by decide)).2.2.2.2.2.2.1 none [{ ID := 43, Name := "b", Description := "" }] rfl⟩

/-- Claim C4 fails on the path segment "-1": `Atoi` parses it as -1 without
error, `ItemContext` renders no bad-request error and `getItem` is served with
the negative id, which reaches the Persistence Port. -/
theorem C4_negative_id_counterexample :
    strconv.Atoi "-1" = (-1, none)
    ∧ ItemContext memEnv (getItem memEnv) (itemRequest "-1" "") (freshWorld []) =
      Except.ok { store := [],
                  log := [Event.port (PortCall.GetItemById (-1)),
                          Event.render Renderer.ErrNotFound none] } := by
  refine ⟨by decide, ?_⟩
  rfl

/-- Claim C4 as amended: `ItemContext` accepts an item id only if it is
non-empty and `Atoi` parses it (on an empty or unparseable id the validator
itself renders an `ErrorRenderer` response, seen here with a next handler that
does nothing), and the parsed integer may be negative: for every path segment
that `Atoi` parses as a negative `n`, the validator renders nothing and serves
the next handler with `n` under `itemIDKey`. -/
theorem C4_accepts_what_Atoi_parses (env : Env σ) (r : Request) (w : World σ) :
    ((chi.URLParam r "itemId" = "" ∨ (strconv.Atoi (chi.URLParam r "itemId")).2 ≠ none) →
      ∃ w1 text, ItemContext env (fun _ w0 => Except.ok w0) r w = Except.ok w1
        ∧ w1.store = w.store
        ∧ w1.log = w.log ++ [Event.render (Renderer.ErrorRenderer (Error.Errorf text))
            (env.renderErr (Renderer.ErrorRenderer (Error.Errorf text)))])
    ∧ (∀ n : Int, strconv.Atoi (chi.URLParam r "itemId") = (n, none) → n < 0 →
        (∀ next : Handler σ, ItemContext env next r w =
          next (r.WithContext (r.Context.WithValue itemIDKey (Any.int n))) w)
        ∧ (r.WithContext (r.Context.WithValue itemIDKey (Any.int n))).Context.Value itemIDKey
            = some (Any.int n)) := by
  refine ⟨?_, ?_⟩
  · intro h
    by_cases h0 : chi.URLParam r "itemId" = ""
    · exact ⟨{ store := w.store,
               log := w.log ++ [Event.render
                 (Renderer.ErrorRenderer (Error.Errorf "item ID is required"))
                 (env.renderErr (Renderer.ErrorRenderer (Error.Errorf "item ID is required")))] },
        "item ID is required", by simp [ItemContext, h0, render.Render], rfl, rfl⟩
    · have herr : (strconv.Atoi (chi.URLParam r "itemId")).2 ≠ none := by
        rcases h with h | h
        · exact absurd h h0
        · exact h
      refine ⟨{ store := w.store,
                log := w.log ++ [Event.render
                  (Renderer.ErrorRenderer (Error.Errorf "invalid item ID"))
                  (env.renderErr (Renderer.ErrorRenderer (Error.Errorf "invalid item ID")))] },
        "invalid item ID", ?_, rfl, rfl⟩
      rw [ItemContext_nonempty env _ r w h0]
      simp [herr]
  · intro n h _
    exact ⟨fun next => ItemContext_parsed env next r w n h,
      Context.Value_WithValue r.Context itemIDKey (Any.int n)⟩

/-- Witness of C4 as amended: "-1" is accepted with the id -1, "" is rejected. -/
theorem C4_accepts_what_Atoi_parses_witness :
    (strconv.Atoi (chi.URLParam (itemRequest "-1" "") "itemId") = (-1, none) ∧ (-1 : Int) < 0
      ∧ ∀ next : Handler (List Item),
        ItemContext memEnv next (itemRequest "-1" "") (freshWorld []) =
          next ((itemRequest "-1" "").WithContext
            ((itemRequest "-1" "").Context.WithValue itemIDKey (Any.int (-1)))) (freshWorld []))
    ∧ ((chi.URLParam (itemRequest "" "") "itemId" = ""
          ∨ (strconv.Atoi (chi.URLParam (itemRequest "" "") "itemId")).2 ≠ none)
      ∧ ∃ w1 text, ItemContext memEnv (fun _ w0 => Except.ok w0) (itemRequest "" "")
            (freshWorld []) = Except.ok w1
        ∧ w1.store = []
        ∧ w1.log = [] ++ [Event.render (Renderer.ErrorRenderer (Error.Errorf text))
            (memEnv.renderErr (Renderer.ErrorRenderer (Error.Errorf text)))]) :=
  ⟨⟨by decide, by decide,
    ((C4_accepts_what_Atoi_parses memEnv (itemRequest "-1" "") (freshWorld [])).2 (-1)
      (by decide) (by decide)).1⟩,
   ⟨Or.inl (by decide),
    (C4_accepts_what_Atoi_parses memEnv (itemRequest "" "") (freshWorld [])).1
      (Or.inl (by decide))⟩⟩

/-- Claim C5: served with the id under `itemIDKey`, whenever the Persistence
Port reports `db.ErrNoMatch` for it, `getItem`, `updateItem` (its body
decoded) and `deleteItem` each make that one Persistence Port call and then
exactly one `render.Render` call, of `ErrNotFound`, the 404 response. In
particular a `deleteItem` run after an earlier one, for an id the Persistence
Port now reports as not found, renders `ErrNotFound` and does not end in
silence as a successful delete does. -/
theorem C5_not_found (env : Env σ) (r : Request) (w : World σ) (id : Int)
    (hctx : r.Context.Value itemIDKey = some (Any.int id)) :
    (∀ (item : Item) (st : σ),
        env.dbInstance.GetItemById id w.store = ((item, some Error.ErrNoMatch), st) →
        getItem env r w = Except.ok
          { store := st,
            log := w.log ++ [Event.port (PortCall.GetItemById id),
              Event.render Renderer.ErrNotFound (env.renderErr Renderer.ErrNotFound)] })
    ∧ (∀ (itemData item : Item) (st : σ), env.Bind r.Body = Except.ok itemData →
        env.dbInstance.UpdateItem id itemData w.store = ((item, some Error.ErrNoMatch), st) →
        updateItem env r w = Except.ok
          { store := st,
            log := w.log ++ [Event.port (PortCall.UpdateItem id itemData),
              Event.render Renderer.ErrNotFound (env.renderErr Renderer.ErrNotFound)] })
    ∧ (∀ st : σ, env.dbInstance.DeleteItem id w.store = (some Error.ErrNoMatch, st) →
        deleteItem env r w = Except.ok
          { store := st,
            log := w.log ++ [Event.port (PortCall.DeleteItem id),
              Event.render Renderer.ErrNotFound (env.renderErr Renderer.ErrNotFound)] })
    ∧ (∀ (w1 : World σ) (st : σ), deleteItem env r w = Except.ok w1 →
        env.dbInstance.DeleteItem id w1.store = (some Error.ErrNoMatch, st) →
        deleteItem env r w1 = Except.ok
          { store := st,
            log := w1.log ++ [Event.port (PortCall.DeleteItem id),
              Event.render Renderer.ErrNotFound (env.renderErr Renderer.ErrNotFound)] })
    ∧ Renderer.statusCode Renderer.ErrNotFound = some 404 := by
  refine ⟨?_, ?_, ?_, ?_, rfl⟩
  · intro item st hres
    simp [getItem, hctx, callGetItemById, hres, render.Render]
  · intro itemData item st hbind hres
    simp [updateItem, hctx, hbind, callUpdateItem, hres, render.Render]
  · intro st hres
    simp [deleteItem, hctx, callDeleteItem, hres, render.Render]
  · intro w1 st _ hres
    simp [deleteItem, hctx, callDeleteItem, hres, render.Render]

/-- Witness of C5: over the in-memory store holding the record 1, a first
`deleteItem` of id 1 succeeds in silence and a second renders `ErrNotFound`;
`getItem` of id 1 over the empty store renders `ErrNotFound`. -/
theorem C5_not_found_witness :
    (({ URLParams := [("itemId", "1")], Body := "", ctx := [(itemIDKey, Any.int 1)] } :
        Request).Context.Value itemIDKey = some (Any.int 1))
    ∧ deleteItem memEnv { URLParams := [("itemId", "1")], Body := "", ctx := [(itemIDKey, Any.int 1)] }
        (freshWorld [{ ID := 1, Name := "a", Description := "" }])
        = Except.ok { store := [], log := [Event.port (PortCall.DeleteItem 1)] }
    ∧ deleteItem memEnv { URLParams := [("itemId", "1")], Body := "", ctx := [(itemIDKey, Any.int 1)] }
        { store := [], log := [Event.port (PortCall.DeleteItem 1)] }
        = Except.ok { store := [],
                      log := [Event.port (PortCall.DeleteItem 1)] ++
                        [Event.port (PortCall.DeleteItem 1),
                         Event.render Renderer.ErrNotFound
                           (memEnv.renderErr Renderer.ErrNotFound)] }
    ∧ getItem memEnv { URLParams := [("itemId", "1")], Body := "", ctx := [(itemIDKey, Any.int 1)] }
        (freshWorld [])
        = Except.ok { store := [],
                      log := [] ++ [Event.port (PortCall.GetItemById 1),
                        Event.render Renderer.ErrNotFound
                          (memEnv.renderErr Renderer.ErrNotFound)] } :=
  ⟨by decide, rfl,
   (C5_not_found memEnv
      { URLParams := [("itemId", "1")], Body := "", ctx := [(itemIDKey, Any.int 1)] }
      (freshWorld [{ ID := 1, Name := "a", Description := "" }]) 1 (by decide)).2.2.2.1
      { store := [], log := [Event.port (PortCall.DeleteItem 1)] } [] rfl rfl,
   (C5_not_found memEnv
      { URLParams := [("itemId", "1")], Body := "", ctx := [(itemIDKey, Any.int 1)] }
      (freshWorld []) 1 (by decide)).1 { ID := 0, Name := "", Description := "" } [] rfl⟩

/-- Claim C6: for every update request whose path id `Atoi` parses as `n` and
whose body decodes to `itemData`, whatever id `itemData` carries, the only
Persistence Port call of the pipeline is `UpdateItem n itemData`, and the
store and the outcome are those of that call on `n`. When the call succeeds
and its record renders, that record is the one response written. So, over
every Persistence Port that keeps the contract of `UpdateItem` (the record
returned for an id carries that id), the id in the response is the path id
`n`, whatever the id in the body. -/
theorem C6_updateItem_uses_path_id (env : Env σ) (r : Request) (w : World σ) (n : Int)
    (itemData : Item)
    (hid : strconv.Atoi (chi.URLParam r "itemId") = (n, none))
    (hbind : env.Bind r.Body = Except.ok itemData) :
    (∃ w1, ItemContext env (updateItem env) r w = Except.ok w1
      ∧ portCalls w1.log = portCalls w.log ++ [PortCall.UpdateItem n itemData]
      ∧ w1.store = (env.dbInstance.UpdateItem n itemData w.store).2)
    ∧ (∀ (item : Item) (st : σ),
        env.dbInstance.UpdateItem n itemData w.store = ((item, none), st) →
        env.renderErr (Renderer.item item) = none →
        ItemContext env (updateItem env) r w = Except.ok
          { store := st,
            log := w.log ++ [Event.port (PortCall.UpdateItem n itemData),
              Event.render (Renderer.item item) none] }
        ∧ responses [Event.port (PortCall.UpdateItem n itemData),
              Event.render (Renderer.item item) none] = [Renderer.item item])
    ∧ (env.dbInstance.UpdateItemReturnsID →
        ∀ w1 : World σ, ItemContext env (updateItem env) r w = Except.ok w1 →
        (∀ rec : Item, Renderer.item rec ∈ renders (w1.log.drop w.log.length) → rec.ID = n)
        ∧ (∀ rec : Item, Renderer.item rec ∈ responses (w1.log.drop w.log.length) →
            rec.ID = n)) := by
  have hctx : (r.WithContext (r.Context.WithValue itemIDKey (Any.int n))).Context.Value itemIDKey
      = some (Any.int n) := Context.Value_WithValue r.Context itemIDKey (Any.int n)
  have hbody : env.Bind (r.WithContext (r.Context.WithValue itemIDKey (Any.int n))).Body
      = Except.ok itemData := hbind
  refine ⟨?_, ?_, ?_⟩
  · rw [ItemContext_parsed env _ r w n hid]
    obtain ⟨w1, h1, hp⟩ := updateItem_portCalls env _ w n itemData hctx hbody
    refine ⟨w1, h1, hp, ?_⟩
    rcases hres : env.dbInstance.UpdateItem n itemData w.store with ⟨⟨item, err⟩, st⟩
    have hw := updateItem_world env _ w n itemData item err st hctx hbody hres
    rw [h1] at hw
    simp only [Except.ok.injEq] at hw
    rw [hw]
  · intro item st hres hr
    refine ⟨?_, rfl⟩
    rw [ItemContext_parsed env _ r w n hid]
    simp [updateItem, hctx, hbody, callUpdateItem, hres, hr, render.Render]
  · intro hport w1 hrun
    suffices hall : ∀ rec : Item,
        Renderer.item rec ∈ renders (w1.log.drop w.log.length) → rec.ID = n from
      ⟨hall, fun rec hmem => hall rec (mem_renders_of_mem_responses _ _ hmem)⟩
    intro rec hmem
    rw [ItemContext_parsed env _ r w n hid] at hrun
    rcases hres : env.dbInstance.UpdateItem n itemData w.store with ⟨⟨item, err⟩, st⟩
    rw [updateItem_world env _ w n itemData item err st hctx hbody hres] at hrun
    simp only [Except.ok.injEq] at hrun
    rw [← hrun] at hmem
    simp only [List.drop_left] at hmem
    cases err with
    | some e =>
      by_cases he : e = Error.ErrNoMatch
      · simp [renders, he] at hmem
      · simp [renders, he] at hmem
    | none =>
      have hID : item.ID = n := hport n itemData item w.store st hres
      cases hr : env.renderErr (Renderer.item item) with
      | none =>
        simp [renders, hr] at hmem
        rw [hmem]
        exact hID
      | some e =>
        simp [renders, hr] at hmem
        rw [hmem]
        exact hID

/-- Witness of C6: a PUT on the path id 7 whose body carries the id 99, over
the in-memory store holding the record 7: the Persistence Port is called with
7, the record 7 is replaced and the response is the record 7. -/
theorem C6_updateItem_uses_path_id_witness :
    strconv.Atoi (chi.URLParam (itemRequest "7" "widget") "itemId") = (7, none)
    ∧ memEnv.Bind (itemRequest "7" "widget").Body
        = Except.ok { ID := 99, Name := "widget", Description := "a widget" }
    ∧ memEnv.dbInstance.UpdateItemReturnsID
    ∧ ItemContext memEnv (updateItem memEnv) (itemRequest "7" "widget")
        (freshWorld [{ ID := 7, Name := "old", Description := "" }])
      = Except.ok
          { store := [{ ID := 7, Name := "widget", Description := "a widget" }],
            log := [] ++ [Event.port (PortCall.UpdateItem 7
                { ID := 99, Name := "widget", Description := "a widget" }),
              Event.render (Renderer.item
                { ID := 7, Name := "widget", Description := "a widget" }) none] }
    ∧ (∀ rec : Item, Renderer.item rec ∈ responses
          (([] ++ [Event.port (PortCall.UpdateItem 7
                { ID := 99, Name := "widget", Description := "a widget" }),
              Event.render (Renderer.item
                { ID := 7, Name := "widget", Description := "a widget" }) none]).drop 0) →
        rec.ID = 7) :=
  ⟨by decide, rfl, memDb_UpdateItem_ID,
   ((C6_updateItem_uses_path_id memEnv (itemRequest "7" "widget")
      (freshWorld [{ ID := 7, Name := "old", Description := "" }]) 7
      { ID := 99, Name := "widget", Description := "a widget" } (by decide) rfl).2.1
      { ID := 7, Name := "widget", Description := "a widget" }
      [{ ID := 7, Name := "widget", Description := "a widget" }] rfl rfl).1,
   ((C6_updateItem_uses_path_id memEnv (itemRequest "7" "widget")
      (freshWorld [{ ID := 7, Name := "old", Description := "" }]) 7
      { ID := 99, Name := "widget", Description := "a widget" } (by decide) rfl).2.2
      memDb_UpdateItem_ID
      { store := [{ ID := 7, Name := "widget", Description := "a widget" }],
        log := [] ++ [Event.port (PortCall.UpdateItem 7
                { ID := 99, Name := "widget", Description := "a widget" }),
              Event.render (Renderer.item
                { ID := 7, Name := "widget", Description := "a widget" }) none] } rfl).2⟩

/-- Claim C9: for every request body that `render.Bind` fails to decode,
`createItem` and `updateItem` make exactly one `render.Render` call, of
`ErrBadRequest` (the 400 response), and return with the store untouched and
no Persistence Port call in the log; and in every run of either handler a
Persistence Port call appears only when the body decoded. -/
theorem C9_decode_failure (env : Env σ) (r : Request) (w : World σ) :
    (∀ e : Error, env.Bind r.Body = Except.error e →
      createItem env r w = Except.ok
        { store := w.store,
          log := w.log ++ [Event.render Renderer.ErrBadRequest
            (env.renderErr Renderer.ErrBadRequest)] }
      ∧ (∀ n : Int, r.Context.Value itemIDKey = some (Any.int n) →
          updateItem env r w = Except.ok
            { store := w.store,
              log := w.log ++ [Event.render Renderer.ErrBadRequest
                (env.renderErr Renderer.ErrBadRequest)] })
      ∧ portCalls (w.log ++ [Event.render Renderer.ErrBadRequest
            (env.renderErr Renderer.ErrBadRequest)]) = portCalls w.log)
    ∧ (∀ w1 : World σ, createItem env r w = Except.ok w1 → portCalls w1.log ≠ portCalls w.log →
        ∃ item : Item, env.Bind r.Body = Except.ok item)
    ∧ (∀ w1 : World σ, updateItem env r w = Except.ok w1 → portCalls w1.log ≠ portCalls w.log →
        ∃ item : Item, env.Bind r.Body = Except.ok item)
    ∧ Renderer.statusCode Renderer.ErrBadRequest = some 400 := by
  refine ⟨?_, ?_, ?_, rfl⟩
  · intro e hbind
    refine ⟨by simp [createItem, hbind, render.Render], ?_, by simp [portCalls_append, portCalls]⟩
    intro n hctx
    exact updateItem_decode_failure env r w n e hctx hbind
  · intro w1 hrun hcalls
    cases hbind : env.Bind r.Body with
    | ok item => exact ⟨item, rfl⟩
    | error e =>
      exfalso
      apply hcalls
      simp [createItem, hbind, render.Render] at hrun
      rw [← hrun]
      simp [portCalls_append, portCalls]
  · intro w1 hrun hcalls
    cases hbind : env.Bind r.Body with
    | ok item => exact ⟨item, rfl⟩
    | error e =>
      exfalso
      apply hcalls
      cases hctx : r.Context.Value itemIDKey with
      | none => simp [updateItem, hctx] at hrun
      | some v =>
        cases v with
        | string s => simp [updateItem, hctx] at hrun
        | int n =>
          rw [updateItem_decode_failure env r w n e hctx hbind] at hrun
          simp at hrun
          rw [← hrun]
          simp [portCalls_append, portCalls]

/-- Witness of C9: a body the sample decoder rejects, on POST and on PUT. -/
theorem C9_decode_failure_witness :
    memEnv.Bind (collectionRequest "not json").Body = Except.error (Error.Errorf "malformed body")
    ∧ createItem memEnv (collectionRequest "not json") (freshWorld [])
        = Except.ok { store := [],
                      log := [] ++ [Event.render Renderer.ErrBadRequest
                        (memEnv.renderErr Renderer.ErrBadRequest)] }
    ∧ updateItem memEnv
        { URLParams := [("itemId", "1")], Body := "not json", ctx := [(itemIDKey, Any.int 1)] }
        (freshWorld [])
        = Except.ok { store := [],
                      log := [] ++ [Event.render Renderer.ErrBadRequest
                        (memEnv.renderErr Renderer.ErrBadRequest)] } :=
  ⟨rfl,
   ((C9_decode_failure memEnv (collectionRequest "not json") (freshWorld [])).1
      (Error.Errorf "malformed body") rfl).1,
   ((C9_decode_failure memEnv
      { URLParams := [("itemId", "1")], Body := "not json", ctx := [(itemIDKey, Any.int 1)] }
      (freshWorld [])).1 (Error.Errorf "malformed body") rfl).2.1 1 (by decide)⟩

/-- Claim C7, evaluated on GET with the path segment "12a" over an in-memory
store: the validation failure path writes two responses, the validator error
built from "invalid item ID" and then the `ErrNotFound` of `getItem`, which
runs on the id 0 because `ItemContext` does not return after its error. -/
theorem C7_parse_failure_writes_two_responses :
    ∃ w1, ItemContext memEnv (getItem memEnv) (itemRequest "12a" "")
        (freshWorld [{ ID := 1, Name := "a", Description := "" }]) = Except.ok w1
      ∧ responses w1.log = [Renderer.ErrorRenderer (Error.Errorf "invalid item ID"),
          Renderer.ErrNotFound]
      ∧ (responses w1.log).length = 2 :=
  ⟨{ store := [{ ID := 1, Name := "a", Description := "" }],
     log := [Event.render (Renderer.ErrorRenderer (Error.Errorf "invalid item ID")) none,
             Event.port (PortCall.GetItemById 0),
             Event.render Renderer.ErrNotFound none] }, rfl, rfl, rfl⟩

/-- Claim C8, evaluated with the storage backend down: `createItem` and
`getItem` render the storage error through `ErrorRenderer`, the bad-request
renderer of the validator (status 400), while `getAllItems`, `deleteItem` and
`updateItem` render the same error through `ServerErrorRenderer` (status
500). -/
theorem C8_storage_failure_renderers :
    createItem downEnv (collectionRequest "widget") (freshWorld ()) =
      Except.ok { store := (),
                  log := [Event.port (PortCall.AddItem
                            { ID := 99, Name := "widget", Description := "a widget" }),
                          Event.render (Renderer.ErrorRenderer
                            (Error.Errorf "connection refused")) none] }
    ∧ getItem downEnv { URLParams := [("itemId", "1")], Body := "", ctx := [(itemIDKey, Any.int 1)] }
        (freshWorld ()) =
      Except.ok { store := (),
                  log := [Event.port (PortCall.GetItemById 1),
                          Event.render (Renderer.ErrorRenderer
                            (Error.Errorf "connection refused")) none] }
    ∧ Renderer.statusCode (Renderer.ErrorRenderer (Error.Errorf "connection refused")) = some 400
    ∧ getAllItems downEnv (collectionRequest "") (freshWorld ()) =
      Except.ok { store := (),
                  log := [Event.port PortCall.GetAllItems,
                          Event.render (Renderer.ServerErrorRenderer
                            (Error.Errorf "connection refused")) none] }
    ∧ deleteItem downEnv
        { URLParams := [("itemId", "1")], Body := "", ctx := [(itemIDKey, Any.int 1)] }
        (freshWorld ()) =
      Except.ok { store := (),
                  log := [Event.port (PortCall.DeleteItem 1),
                          Event.render (Renderer.ServerErrorRenderer
                            (Error.Errorf "connection refused")) none] }
    ∧ updateItem downEnv
        { URLParams := [("itemId", "1")], Body := "widget", ctx := [(itemIDKey, Any.int 1)] }
        (freshWorld ()) =
      Except.ok { store := (),
                  log := [Event.port (PortCall.UpdateItem 1
                            { ID := 99, Name := "widget", Description := "a widget" }),
                          Event.render (Renderer.ServerErrorRenderer
                            (Error.Errorf "connection refused")) none] }
    ∧ Renderer.statusCode (Renderer.ServerErrorRenderer (Error.Errorf "connection refused"))
        = some 500 :=
  ⟨rfl, rfl, rfl, rfl, rfl, rfl, rfl⟩

/-- Claim C10 fails on the path segment "9223372036854775808": `Atoi` fails
with a range error and returns the largest `int`, not 0, and that is the value
`ItemContext` puts under `itemIDKey` for the next handler; `getItem` carries
it to the Persistence Port. -/
theorem C10_range_error_counterexample :
    strconv.Atoi "9223372036854775808" = (9223372036854775807, some strconv.NumError.ErrRange)
    ∧ (9223372036854775807 : Int) ≠ 0
    ∧ (∀ next : Handler (List Item),
        ItemContext memEnv next (itemRequest "9223372036854775808" "") (freshWorld []) =
          next { URLParams := [("itemId", "9223372036854775808")], Body := "",
                 ctx := [(itemIDKey, Any.int 9223372036854775807)] }
            { store := [],
              log := [Event.render (Renderer.ErrorRenderer (Error.Errorf "invalid item ID"))
                none] })
    ∧ ItemContext memEnv (getItem memEnv) (itemRequest "9223372036854775808" "") (freshWorld []) =
      Except.ok { store := [],
                  log := [Event.render (Renderer.ErrorRenderer (Error.Errorf "invalid item ID")) none,
                          Event.port (PortCall.GetItemById 9223372036854775807),
                          Event.render Renderer.ErrNotFound none] } := by
  refine ⟨by decide, by decide, ?_, ?_⟩
  · intro next
    rfl
  · rfl

/-- Claim C10 as amended: whenever `ItemContext` serves the next handler (on
every non-empty id), the context it passes holds under `itemIDKey` the `int`
that `Atoi` returned: the parsed id, or with an error 0 (syntax error) or the
nearest bound of `int` (range error). On an empty id the next handler is not
served. So `getItem`, `updateItem` and `deleteItem` behind `ItemContext`
always return: the type assertion never panics. -/
theorem C10_type_assertion_never_panics (env : Env σ) (r : Request) (w : World σ) :
    (chi.URLParam r "itemId" ≠ "" →
      (∀ next : Handler σ, ItemContext env next r w =
        next (r.WithContext (r.Context.WithValue itemIDKey
            (Any.int (strconv.Atoi (chi.URLParam r "itemId")).1)))
          (if (strconv.Atoi (chi.URLParam r "itemId")).2 ≠ none then
            { store := w.store,
              log := w.log ++ [Event.render
                (Renderer.ErrorRenderer (Error.Errorf "invalid item ID"))
                (env.renderErr (Renderer.ErrorRenderer (Error.Errorf "invalid item ID")))] }
          else w))
      ∧ (r.WithContext (r.Context.WithValue itemIDKey
            (Any.int (strconv.Atoi (chi.URLParam r "itemId")).1))).Context.Value itemIDKey
          = some (Any.int (strconv.Atoi (chi.URLParam r "itemId")).1))
    ∧ (chi.URLParam r "itemId" = "" → ∀ next : Handler σ,
        ItemContext env next r w = ItemContext env (fun _ _ => Except.error Panic.typeAssertion) r w)
    ∧ ((strconv.Atoi (chi.URLParam r "itemId")).2 = none
      ∨ strconv.Atoi (chi.URLParam r "itemId") = (0, some strconv.NumError.ErrSyntax)
      ∨ strconv.Atoi (chi.URLParam r "itemId") = (2 ^ 63 - 1, some strconv.NumError.ErrRange)
      ∨ strconv.Atoi (chi.URLParam r "itemId") = (-(2 ^ 63), some strconv.NumError.ErrRange))
    ∧ (∃ w1, ItemContext env (getItem env) r w = Except.ok w1)
    ∧ (∃ w1, ItemContext env (updateItem env) r w = Except.ok w1)
    ∧ (∃ w1, ItemContext env (deleteItem env) r w = Except.ok w1) := by
  have hempty : chi.URLParam r "itemId" = "" → ∀ next : Handler σ,
      ItemContext env next r w = Except.ok
        { store := w.store,
          log := w.log ++ [Event.render
            (Renderer.ErrorRenderer (Error.Errorf "item ID is required"))
            (env.renderErr (Renderer.ErrorRenderer (Error.Errorf "item ID is required")))] } := by
    intro h0 next
    simp [ItemContext, h0, render.Render]
  refine ⟨?_, ?_, Atoi_error_value _, ?_, ?_, ?_⟩
  · intro hne
    exact ⟨fun next => ItemContext_nonempty env next r w hne,
      Context.Value_WithValue r.Context itemIDKey _⟩
  · intro h0 next
    rw [hempty h0 next, hempty h0 _]
  · by_cases h0 : chi.URLParam r "itemId" = ""
    · exact ⟨_, hempty h0 _⟩
    · rw [ItemContext_nonempty env _ r w h0]
      exact getItem_returns env _ _ _ (Context.Value_WithValue r.Context itemIDKey _)
  · by_cases h0 : chi.URLParam r "itemId" = ""
    · exact ⟨_, hempty h0 _⟩
    · rw [ItemContext_nonempty env _ r w h0]
      exact updateItem_returns env _ _ _ (Context.Value_WithValue r.Context itemIDKey _)
  · by_cases h0 : chi.URLParam r "itemId" = ""
    · exact ⟨_, hempty h0 _⟩
    · rw [ItemContext_nonempty env _ r w h0]
      exact deleteItem_returns env _ _ _ (Context.Value_WithValue r.Context itemIDKey _)

/-- Witness of C10 as amended: the path segment "-9223372036854775809", on
which `Atoi` fails with a range error and returns the smallest `int`, and the
empty path segment. -/
theorem C10_type_assertion_never_panics_witness :
    (chi.URLParam (itemRequest "-9223372036854775809" "") "itemId" ≠ ""
      ∧ (∀ next : Handler (List Item),
          ItemContext memEnv next (itemRequest "-9223372036854775809" "") (freshWorld []) =
            next ((itemRequest "-9223372036854775809" "").WithContext
                ((itemRequest "-9223372036854775809" "").Context.WithValue itemIDKey
                  (Any.int (strconv.Atoi
                    (chi.URLParam (itemRequest "-9223372036854775809" "") "itemId")).1)))
              (if (strconv.Atoi
                    (chi.URLParam (itemRequest "-9223372036854775809" "") "itemId")).2 ≠ none then
                { store := (freshWorld ([] : List Item)).store,
                  log := (freshWorld ([] : List Item)).log ++ [Event.render
                    (Renderer.ErrorRenderer (Error.Errorf "invalid item ID"))
                    (memEnv.renderErr (Renderer.ErrorRenderer (Error.Errorf "invalid item ID")))] }
              else freshWorld []))
      ∧ strconv.Atoi (chi.URLParam (itemRequest "-9223372036854775809" "") "itemId")
          = (-9223372036854775808, some strconv.NumError.ErrRange))
    ∧ (chi.URLParam (itemRequest "" "") "itemId" = ""
      ∧ ∀ next : Handler (List Item),
        ItemContext memEnv next (itemRequest "" "") (freshWorld []) =
          ItemContext memEnv (fun _ _ => Except.error Panic.typeAssertion) (itemRequest "" "")
            (freshWorld [])) :=
  ⟨⟨by decide,
    ((C10_type_assertion_never_panics memEnv (itemRequest "-9223372036854775809" "")
      (freshWorld [])).1 (by decide)).1,
    by decide⟩,
   ⟨by decide,
    (C10_type_assertion_never_panics memEnv (itemRequest "" "") (freshWorld [])).2.1 (by decide)⟩⟩

end handler
